import Mathlib

/-!
Verification development for the emotion-classification and recommendation core
of the "AI Mental Wellness Companion" browser extension.

The JavaScript sources are embedded shallowly:
* strings are Lean `String`s, manipulated through their `List Char` data;
* JS numbers are modelled as exact rationals (`ℚ`) — the literals 0.02, 0.01
  and 0.5 appearing in the source are modelled as 1/50, 1/100 and 1/2;
* timestamps (epoch milliseconds) are integers (`ℤ`);
* JS `undefined`/`null` fields are modelled with `Option`;
* code that may throw is modelled with `Except Unit`, and the `try`/`catch`
  blocks of the source become explicit `match`es on those values.
-/

namespace Wellness

/-! ## JS string primitives used by `fallbackEmotionAnalysis` -/

/-- Model of the character class `\w` of JS regexes: ASCII letters, digits
and underscore. -/
def isWordChar (c : Char) : Bool :=
  (('a' ≤ c && c ≤ 'z') || ('A' ≤ c && c ≤ 'Z') || ('0' ≤ c && c ≤ '9') || c = '_')

/-- Model of the character class `\s` of JS regexes (the whitespace characters
relevant here: space, tab, newline, carriage return, vertical tab, form feed,
no-break space). -/
def isWs (c : Char) : Bool :=
  (c = ' ' || c = '\t' || c = '\n' || c = '\r' || c.val = 11 || c.val = 12 || c.val = 160)

/-- Model of `String.prototype.toLowerCase`, restricted to its ASCII action
(the lexicon terms and all inputs used concretely below are unchanged by the
non-ASCII part of Unicode lowercasing). -/
def jsToLower (cs : List Char) : List Char :=
  cs.map Char.toLower

/-- Case-insensitive character equality, as produced by the `i` regex flag. -/
def charEqCI (a b : Char) : Bool :=
  a.toLower = b.toLower

/-- Case-insensitive "the keyword is an initial segment of this suffix". -/
def ciStartsWith : List Char → List Char → Bool
  | [], _ => true
  | _ :: _, [] => false
  | a :: as, b :: bs => charEqCI a b && ciStartsWith as bs

/-- Word-char status of an optional character; a missing character (start or
end of the text) counts as a non-word position, as in JS `\b`. -/
def isWordOpt : Option Char → Bool
  | some c => isWordChar c
  | none => false

/-- A `\b` word boundary holds between two (optional) characters when exactly
one of them is a word character. -/
def isBoundary (a b : Option Char) : Bool :=
  isWordOpt a != isWordOpt b

/-- Does the regex `\b<kw>\b` match at the start of the suffix `s`, given the
character `prev` immediately preceding `s` in the full text? -/
def matchHere (prev : Option Char) (kw s : List Char) : Bool :=
  ciStartsWith kw s
    && isBoundary prev s.head?
    && isBoundary ((s.take kw.length).getLast?) ((s.drop kw.length).head?)

/-- Count of the non-overlapping left-to-right matches of `\b<kw>\b` in the
suffix `s`, i.e. `lowerText.match(regex).length` with the `g` flag; `fuel`
bounds the scan (the source lexicon has no empty keyword, so every recursive
call consumes at least one character and `s.length` fuel suffices). -/
def countOccAux (kw : List Char) : Nat → Option Char → List Char → Nat
  | 0, _, _ => 0
  | _ + 1, _, [] => 0
  | fuel + 1, prev, c :: rest =>
    if matchHere prev kw (c :: rest) then
      1 + countOccAux kw fuel ((c :: rest).take kw.length).getLast? ((c :: rest).drop (max kw.length 1))
    else
      countOccAux kw fuel (some c) rest

/-- Number of matches of `new RegExp("\\b" + keyword + "\\b", "gi")` in `lowerText`. -/
def countOcc (lowerText : List Char) (keyword : String) : Nat :=
  countOccAux keyword.data lowerText.length none lowerText

/-- Model of `lowerText.split(/\s+/)`: maximal whitespace runs are separators,
a leading run yields a leading empty token, a trailing run a trailing empty
token, and the empty string yields `[""]`. -/
def splitWs : List Char → List (List Char)
  | [] => [[]]
  | c :: rest =>
    if isWs c then
      match rest with
      | c2 :: _ => if isWs c2 then splitWs rest else [] :: splitWs rest
      | [] => [] :: splitWs rest
    else
      match splitWs rest with
      | t :: ts => (c :: t) :: ts
      | [] => [[c]]

/-! ## The classification result record (`ClassificationResult`) -/

/-- Shape of the objects returned by `analyzeEmotion` and
`fallbackEmotionAnalysis` in `ai-service.js`. -/
structure Result where
  emotion : String
  score : ℚ
  intensity : String
  keywords : List String
  suggestion : String
  source : String
  deriving DecidableEq

/-! ## The multilingual lexicon of `fallbackEmotionAnalysis` (ai-service.js),
transcribed verbatim, duplicates across languages included. -/

def positiveKeywords : List String :=
  ["happy", "joy", "wonderful", "great", "positive", "optimistic", "celebrate", "excited", "love", "beautiful", "amazing", "excellent", "fantastic", "cheerful", "delighted", "pleased",
   "feliz", "alegria", "maravilhoso", "ótimo", "positivo", "otimista", "celebrar", "animado", "amor", "lindo", "incrível", "excelente", "fantástico",
   "feliz", "alegría", "maravilloso", "genial", "positivo", "optimista", "celebrar", "emocionado", "amor", "hermoso", "increíble", "excelente", "fantástico",
   "heureux", "joie", "merveilleux", "génial", "positif", "optimiste", "célébrer", "excité", "amour", "beau", "incroyable", "excellent", "fantastique",
   "glücklich", "freude", "wunderbar", "großartig", "positiv", "optimistisch", "feiern", "aufgeregt", "liebe", "schön", "erstaunlich", "ausgezeichnet"]

def negativeKeywords : List String :=
  ["sad", "terrible", "worst", "awful", "horrible", "bad", "unfortunate", "disappointing", "depressing", "tragic", "miserable", "unhappy", "sorrow", "pain", "hurt",
   "triste", "terrível", "pior", "horrível", "ruim", "infeliz", "decepcionante", "deprimente", "trágico", "miserável", "dor", "sofrimento",
   "triste", "terrible", "peor", "horrible", "malo", "desafortunado", "decepcionante", "deprimente", "trágico", "miserable", "dolor", "sufrimiento",
   "triste", "terrible", "pire", "horrible", "mauvais", "malheureux", "décevant", "déprimant", "tragique", "misérable", "douleur",
   "traurig", "schrecklich", "schlimmste", "furchtbar", "schlecht", "unglücklich", "enttäuschend", "deprimierend", "tragisch", "elend", "schmerz"]

def anxietyKeywords : List String :=
  ["anxious", "panic", "worry", "nervous", "stress", "stressed", "overwhelmed", "fear", "scared", "afraid", "uncertain", "tension", "pressure", "worried", "concern",
   "ansioso", "pânico", "preocupado", "nervoso", "estresse", "estressado", "sobrecarregado", "medo", "assustado", "receio", "incerto", "tensão", "pressão",
   "ansioso", "pánico", "preocupado", "nervioso", "estrés", "estresado", "abrumado", "miedo", "asustado", "temeroso", "incierto", "tensión", "presión",
   "anxieux", "panique", "inquiet", "nerveux", "stress", "stressé", "débordé", "peur", "effrayé", "craintif", "incertain", "tension", "pression",
   "ängstlich", "panik", "besorgt", "nervös", "stress", "gestresst", "überfordert", "angst", "erschrocken", "unsicher", "spannung", "druck"]

def angerKeywords : List String :=
  ["angry", "outrage", "furious", "irate", "rage", "hate", "attack", "violence", "fight", "hostile", "aggressive", "frustrated", "annoyed", "irritated", "mad",
   "raiva", "furioso", "irritado", "ódio", "ataque", "violência", "luta", "hostil", "agressivo", "frustrado", "chateado", "bravo",
   "enojado", "furia", "furioso", "odio", "ataque", "violencia", "pelea", "hostil", "agresivo", "frustrado", "molesto", "irritado",
   "en colère", "furieux", "rage", "haine", "attaque", "violence", "combat", "hostile", "agressif", "frustré", "agacé", "irrité",
   "wütend", "zorn", "wut", "hass", "angriff", "gewalt", "kampf", "feindselig", "aggressiv", "frustriert", "verärgert", "gereizt"]

/-- Accumulation of regex match counts for one category (`keywords.forEach(...)`). -/
def countCategory (lowerText : List Char) (kws : List String) : Nat :=
  (kws.map (countOcc lowerText)).sum

/-! ## `fallbackEmotionAnalysis` (ai-service.js, lines 265–358) -/

def fallbackEmotionAnalysis (text : String) : Result :=
  let lowerText := jsToLower text.data
  let words := splitWs lowerText
  let counts : List (String × Nat) :=
    [("positive", countCategory lowerText positiveKeywords),
     ("negative", countCategory lowerText negativeKeywords),
     ("anxiety", countCategory lowerText anxietyKeywords),
     ("anger", countCategory lowerText angerKeywords)]
  let totalMatches := (counts.map (·.2)).sum
  if totalMatches = 0 then
    { emotion := "neutral", score := 0, intensity := "low",
      keywords := [], suggestion := "", source := "multilingual-heuristic" }
  else
    let dominantPair := counts.foldl (fun acc p => if p.2 > acc.2 then p else acc) ("neutral", 0)
    let score : ℚ := (dominantPair.2 : ℚ) / (words.length : ℚ)
    let intensity := if score > 1/50 then "high" else if score > 1/100 then "medium" else "low"
    { emotion := dominantPair.1, score := score, intensity := intensity,
      keywords := [], suggestion := "", source := "multilingual-heuristic" }

/-! Named projections of the classifier internals, used to state properties. -/

def posCount (text : String) : Nat := countCategory (jsToLower text.data) positiveKeywords

def negCount (text : String) : Nat := countCategory (jsToLower text.data) negativeKeywords

def anxCount (text : String) : Nat := countCategory (jsToLower text.data) anxietyKeywords

def angCount (text : String) : Nat := countCategory (jsToLower text.data) angerKeywords

def totalMatchCount (text : String) : Nat :=
  posCount text + negCount text + anxCount text + angCount text

def tokenCount (text : String) : Nat :=
  (splitWs (jsToLower text.data)).length

/-! ## Recommendation engines

`Prefs` models a JS object used as a mapping exerciseId → boolean: looking up
an absent key gives `undefined` (`none`), a present key gives its boolean. -/

def Prefs : Type := String → Option Bool

/-- The fixed per-emotion candidate table (`const recommendations = {...}`),
defined verbatim in both ai-service.js and the background service worker. -/
def recommendationsLookup (e : String) : Option (List String) :=
  if e = "anxiety" then some ["breathing", "mindfulness"]
  else if e = "anger" then some ["breathing", "mindfulness"]
  else if e = "negative" then some ["affirmation", "mindfulness"]
  else if e = "positive" then some ["affirmation"]
  else if e = "neutral" then some ["breathing", "affirmation", "mindfulness"]
  else none

/-- Lookup with neutral default: `recommendations[emotion] || recommendations.neutral`. -/
def suggestedFor (emotion : String) : List String :=
  (recommendationsLookup emotion).getD ["breathing", "affirmation", "mindfulness"]

/-- Model of `AIService.getRecommendedExercise(emotion, preferences)` (ai-service.js,
lines 470–487). The `preferences` argument is a JS object whose (optional)
`preferredExercises` field is the exerciseId → boolean mapping; that optional
field is the `preferredExercises?` parameter here. -/
def getRecommendedExercise (emotion : String) (preferredExercises? : Option Prefs) : String :=
  let availableExercises := (suggestedFor emotion).filter (fun ex =>
    match preferredExercises? with
    | none => true
    | some prefs => !(prefs ex == some false))
  availableExercises.head?.getD "breathing"

/-- Model of `getRecommendedExercise(emotion, cfg)` of the background service worker.
The `cfg` argument is the config object; its (optional) `preferredExercises`
field is the `preferredExercises?` parameter here (`cfg.preferredExercises &&
cfg.preferredExercises[ex]` is a truthiness test, so only an explicit `true`
puts an exercise on the preferred list). -/
def bgGetRecommendedExercise (emotion : String) (preferredExercises? : Option Prefs) : String :=
  let truthyPref : String → Bool := fun ex =>
    match preferredExercises? with
    | none => false
    | some prefs => prefs ex == some true
  let exercises :=
    (if truthyPref "breathing" then ["breathing"] else []) ++
    (if truthyPref "affirmation" then ["affirmation"] else []) ++
    (if truthyPref "mindfulness" then ["mindfulness"] else [])
  let exercises := if exercises = [] then ["breathing", "affirmation", "mindfulness"] else exercises
  let suggested := suggestedFor emotion
  match suggested.find? (fun ex => exercises.contains ex) with
  | some ex => ex
  | none => exercises.head?.getD "breathing"

/-! ## The model-backed path of `AIService.analyzeEmotion`

The external Chrome AI capability, the translation step and the JSON library
are collaborators outside the core; they are modelled as an environment of
total/fallible functions. -/

/-- Fields of the object produced by `JSON.parse` on the model response; each
field may be absent. An empty `emotion` string models a present-but-falsy
value. -/
structure ParsedResult where
  emotion : Option String
  score : Option ℚ
  intensity : Option String
  keywords : Option (List String)
  suggestion : Option String

/-- Environment of `analyzeEmotion`: the state of the language-model session
after the `initLanguageModel` attempt, the (total, internally error-catching)
`translateForAnalysis` step, the session `prompt` call (which may throw), and
the regex-extraction + `JSON.parse` step (`none` models both a missing
`/\x7b[\s\S]*\x7d/` match and a caught parse error). -/
structure ModelEnv where
  sessionAvailable : Bool
  translate : String → String
  promptResponse : String → Except Unit String
  parseResponse : String → Option ParsedResult

/-- Evaluation of `x || d` for a JS string value that may be absent: both `undefined` and
the falsy empty string fall back to the default. -/
def jsOrString (x : Option String) (d : String) : String :=
  match x with
  | some v => if v = "" then d else v
  | none => d

/-- Model of `String.prototype.slice(0, n)`. -/
def jsSlice (s : String) (n : Nat) : String :=
  String.mk (s.data.take n)

/-- Model of `AIService.analyzeEmotion(text)` (ai-service.js, lines 204–258). The
outer `try`/`catch` and inner `try`/`catch` of the source become the `match`
on `promptResponse` (a thrown error) and the `none` case of `parseResponse`
(no JSON found, or `JSON.parse` threw); every failure path returns
`fallbackEmotionAnalysis(text)`. -/
def analyzeEmotion (env : ModelEnv) (text : String) : Result :=
  if !env.sessionAvailable then
    fallbackEmotionAnalysis text
  else
    let textForAnalysis := env.translate text
    let truncatedText := jsSlice textForAnalysis 5000
    let prompt := "Analyze the emotional tone of this text and respond with JSON only:\n\n\"" ++ truncatedText ++ "\""
    match env.promptResponse prompt with
    | Except.error _ => fallbackEmotionAnalysis text
    | Except.ok response =>
      match env.parseResponse response with
      | none => fallbackEmotionAnalysis text
      | some result =>
        match result.emotion, result.score with
        | some e, some s =>
          if e ≠ "" then
            { emotion := e,
              score := min (max s 0) 1,
              intensity := jsOrString result.intensity "medium",
              keywords := result.keywords.getD [],
              suggestion := jsOrString result.suggestion "",
              source := "chrome-ai" }
          else fallbackEmotionAnalysis text
        | _, _ => fallbackEmotionAnalysis text

/-! ## History store (background service worker, `TRACK_EMOTION` handler,
and the time-window filter of the dashboard) -/

/-- Persisted `EmotionRecord`. -/
structure EmotionRecord where
  ts : ℤ
  url : Option String
  title : Option String
  emotion : String
  score : Option ℚ
  intensity : String
  keywords : List String
  suggestion : String
  source : String
  deriving DecidableEq

/-- Persisted `ExerciseRecord` (the `TRACK_EXERCISE` handler). -/
structure ExerciseRecord where
  ts : ℤ
  exercise : String
  duration : Option ℚ
  completed : Bool
  deriving DecidableEq

/-- Payload of a `TRACK_EMOTION` message. -/
structure TrackMsg where
  emotion : String
  score : Option ℚ
  intensity : Option String
  keywords : Option (List String)
  suggestion : Option String
  source : Option String
  deriving DecidableEq

/-- Evaluation of `msg.score || null`: a numeric value is kept only when truthy, so the
number 0 is persisted as `null`. -/
def jsOrNullScore (x : Option ℚ) : Option ℚ :=
  match x with
  | some v => if v = 0 then none else some v
  | none => none

/-- The record built by the `TRACK_EMOTION` handler, stamped with the current
time `now` (= `Date.now()`). -/
def mkEmotionRecord (now : ℤ) (url title : Option String) (msg : TrackMsg) : EmotionRecord :=
  { ts := now,
    url := url,
    title := title,
    emotion := msg.emotion,
    score := jsOrNullScore msg.score,
    intensity := jsOrString msg.intensity "medium",
    keywords := msg.keywords.getD [],
    suggestion := jsOrString msg.suggestion "",
    source := jsOrString msg.source "unknown" }

def sevenDaysMs : ℤ := 7 * 24 * 60 * 60 * 1000

/-- The eviction filter: keep the records whose timestamp is at least
`now - retentionWindowMs` (`arr.filter(r => r.ts >= sevenDaysAgo)`). -/
def evict (now retentionWindowMs : ℤ) (log : List EmotionRecord) : List EmotionRecord :=
  log.filter (fun r => decide (now - retentionWindowMs ≤ r.ts))

/-- The full `TRACK_EMOTION` append path: push the stamped record, then evict
with the fixed 7-day retention window. -/
def trackEmotionUpdate (log : List EmotionRecord) (now : ℤ) (url title : Option String)
    (msg : TrackMsg) : List EmotionRecord :=
  evict now sevenDaysMs (log ++ [mkEmotionRecord now url title msg])

/-- The time-window query of the dashboard
(`allEmotions.filter(r => r.ts >= startTime)`). -/
def queryWindow (startTimestamp : ℤ) (log : List EmotionRecord) : List EmotionRecord :=
  log.filter (fun r => decide (startTimestamp ≤ r.ts))

/-! ## Dashboard insights (`generateInsights`, dashboard script lines 94–155) -/

def insufficientDataMsg : String :=
  "Not enough data yet. Browse the web and your wellness companion will provide insights."

def mostlyPositiveMsg : String :=
  "You\x27ve been exposed to mostly positive content. Great job curating your digital environment!"

def mostlyNegativeMsg : String :=
  "You\x27ve encountered significant negative or stressful content. Consider taking breaks or using wellness exercises more frequently."

def balancedMsg : String :=
  "Your emotional exposure is balanced. Keep monitoring your wellbeing as you browse."

def highAnxietyMsg : String :=
  "High anxiety detection. Try the breathing exercise to help manage stress levels."

def commitmentMsg (completedExercises : Nat) : String :=
  "Great commitment! You\x27ve completed " ++ toString completedExercises ++ " wellness exercises. Keep up the self-care!"

def tryExercisesMsg : String :=
  "You haven\x27t tried any wellness exercises yet. They can help manage stress and improve your mood."

def aiUsageMsg (aiAnalyzed : Nat) : String :=
  toString aiAnalyzed ++ " analyses were powered by Chrome\x27s built-in AI for enhanced accuracy."

/-- Model of `generateInsights(emotionData, exerciseData)`: the ordered list of insight
strings rendered into the insights container (the under-5-records early
return renders the single "insufficient data" empty state). JS float literals
0.5 and 0.3 are modelled as the exact rationals 1/2 and 3/10. -/
def generateInsights (emotionData : List EmotionRecord) (exerciseData : List ExerciseRecord) :
    List String :=
  if emotionData.length < 5 then [insufficientDataMsg]
  else
    let counts : String → Nat := fun e => emotionData.countP (fun r => r.emotion == e)
    let total := emotionData.length
    let negativeCount := counts "negative" + counts "anxiety" + counts "anger"
    let positiveCount := counts "positive"
    let moodInsight :=
      if (positiveCount : ℚ) > (total : ℚ) * (1/2) then mostlyPositiveMsg
      else if (negativeCount : ℚ) > (total : ℚ) * (1/2) then mostlyNegativeMsg
      else balancedMsg
    let completedExercises := exerciseData.countP (fun e => e.completed)
    [moodInsight]
      ++ (if (counts "anxiety" : ℚ) > (total : ℚ) * (3/10) then [highAnxietyMsg] else [])
      ++ (if completedExercises > 5 then [commitmentMsg completedExercises]
          else if completedExercises = 0 ∧ negativeCount > 3 then [tryExercisesMsg] else [])
      ++ (let aiAnalyzed := emotionData.countP (fun r => r.source == "chrome-ai")
          if aiAnalyzed > 0 then [aiUsageMsg aiAnalyzed] else [])

/-! ## Helper lemmas -/

/-- The `for (const [emotion, count] of Object.entries(counts))` maximum scan:
starting from `("neutral", 0)` with a strict comparison, it returns the first
category (in insertion order) whose count equals the overall maximum, as soon
as at least one count is positive. -/
lemma fold4_eq (a b c d : ℕ) (h : 1 ≤ a + b + c + d) :
    List.foldl (fun (acc : String × ℕ) p => if p.2 > acc.2 then p else acc) ("neutral", 0)
      [("positive", a), ("negative", b), ("anxiety", c), ("anger", d)]
    = (if a = max (max (max a b) c) d then ("positive", a)
       else if b = max (max (max a b) c) d then ("negative", b)
       else if c = max (max (max a b) c) d then ("anxiety", c)
       else ("anger", d)) := by
  simp only [List.foldl, gt_iff_lt]
  split_ifs <;> first | rfl | (exfalso; simp only [Prod.snd] at *; omega)

/-- Closed form of the non-neutral branch of `fallbackEmotionAnalysis`. -/
lemma fallback_eq (text : String) (h : 1 ≤ totalMatchCount text) :
    fallbackEmotionAnalysis text =
      { emotion :=
          if posCount text = max (max (max (posCount text) (negCount text)) (anxCount text)) (angCount text) then "positive"
          else if negCount text = max (max (max (posCount text) (negCount text)) (anxCount text)) (angCount text) then "negative"
          else if anxCount text = max (max (max (posCount text) (negCount text)) (anxCount text)) (angCount text) then "anxiety"
          else "anger",
        score := ((max (max (max (posCount text) (negCount text)) (anxCount text)) (angCount text) : ℕ) : ℚ) / (tokenCount text : ℚ),
        intensity :=
          if ((max (max (max (posCount text) (negCount text)) (anxCount text)) (angCount text) : ℕ) : ℚ) / (tokenCount text : ℚ) > 1/50 then "high"
          else if ((max (max (max (posCount text) (negCount text)) (anxCount text)) (angCount text) : ℕ) : ℚ) / (tokenCount text : ℚ) > 1/100 then "medium"
          else "low",
        keywords := [], suggestion := "", source := "multilingual-heuristic" } := by
  unfold totalMatchCount at h
  unfold fallbackEmotionAnalysis posCount negCount anxCount angCount tokenCount
  unfold posCount negCount anxCount angCount at h
  simp only [List.map_cons, List.map_nil, List.sum_cons, List.sum_nil]
  rw [if_neg (by omega), fold4_eq _ _ _ _ (by omega)]
  clear h
  generalize countCategory (jsToLower text.data) positiveKeywords = a
  generalize countCategory (jsToLower text.data) negativeKeywords = b
  generalize countCategory (jsToLower text.data) anxietyKeywords = c
  generalize countCategory (jsToLower text.data) angerKeywords = d
  generalize (splitWs (jsToLower text.data)).length = n
  have hsnd : (if a = max (max (max a b) c) d then ("positive", a)
       else if b = max (max (max a b) c) d then ("negative", b)
       else if c = max (max (max a b) c) d then ("anxiety", c)
       else ("anger", d)).2 = max (max (max a b) c) d := by
    split_ifs <;> first | assumption | (simp only [Prod.snd]; omega)
  have hfst : (if a = max (max (max a b) c) d then ("positive", a)
       else if b = max (max (max a b) c) d then ("negative", b)
       else if c = max (max (max a b) c) d then ("anxiety", c)
       else ("anger", d)).1
      = (if a = max (max (max a b) c) d then "positive"
       else if b = max (max (max a b) c) d then "negative"
       else if c = max (max (max a b) c) d then "anxiety"
       else "anger") := by
    split_ifs <;> rfl
  rw [hsnd, hfst]

/-- The neutral branch of `fallbackEmotionAnalysis`. -/
lemma fallback_eq_zero (text : String) (h : totalMatchCount text = 0) :
    fallbackEmotionAnalysis text =
      { emotion := "neutral", score := 0, intensity := "low",
        keywords := [], suggestion := "", source := "multilingual-heuristic" } := by
  unfold totalMatchCount posCount negCount anxCount angCount at h
  unfold fallbackEmotionAnalysis
  simp only [List.map_cons, List.map_nil, List.sum_cons, List.sum_nil]
  rw [if_pos (by omega)]

lemma fallback_source (text : String) :
    (fallbackEmotionAnalysis text).source = "multilingual-heuristic" := by
  by_cases h : totalMatchCount text = 0
  · rw [fallback_eq_zero text h]
  · rw [fallback_eq text (by omega)]

lemma fallback_score_nonneg (text : String) : 0 ≤ (fallbackEmotionAnalysis text).score := by
  by_cases h : totalMatchCount text = 0
  · rw [fallback_eq_zero text h]
  · rw [fallback_eq text (by omega)]
    exact div_nonneg (Nat.cast_nonneg _) (Nat.cast_nonneg _)

lemma fallback_emotion_mem (text : String) :
    (fallbackEmotionAnalysis text).emotion ∈
      (["positive", "negative", "anxiety", "anger", "neutral"] : List String) := by
  by_cases h : totalMatchCount text = 0
  · rw [fallback_eq_zero text h]; simp
  · rw [fallback_eq text (by omega)]
    simp only []
    split_ifs <;> simp

/-! ## Claim theorems -/

/-- C2: for every input text with at least one lexicon match, the heuristic
classifier returns the category with the strictly highest whole-word match
count, ties resolved in favour of the first-seen category in the order
positive, negative, anxiety, anger; its score is that match count divided by
the whitespace-token count, and its intensity is high when score > 0.02,
medium when score > 0.01, and low otherwise. -/
theorem heuristic_argmax_score_intensity (text : String) (h : 1 ≤ totalMatchCount text) :
    (fallbackEmotionAnalysis text).emotion
      = (if posCount text = max (max (max (posCount text) (negCount text)) (anxCount text)) (angCount text) then "positive"
         else if negCount text = max (max (max (posCount text) (negCount text)) (anxCount text)) (angCount text) then "negative"
         else if anxCount text = max (max (max (posCount text) (negCount text)) (anxCount text)) (angCount text) then "anxiety"
         else "anger")
    ∧ (fallbackEmotionAnalysis text).score
      = ((max (max (max (posCount text) (negCount text)) (anxCount text)) (angCount text) : ℕ) : ℚ) / (tokenCount text : ℚ)
    ∧ (fallbackEmotionAnalysis text).intensity
      = (if (fallbackEmotionAnalysis text).score > 1/50 then "high"
         else if (fallbackEmotionAnalysis text).score > 1/100 then "medium"
         else "low") := by
  refine ⟨?_, ?_, ?_⟩ <;> rw [fallback_eq text h]

/-- C2 witness: the text "happy" has exactly one lexicon match. -/
theorem heuristic_argmax_score_intensity_witness :
    1 ≤ totalMatchCount "happy"
    ∧ ((fallbackEmotionAnalysis "happy").emotion
      = (if posCount "happy" = max (max (max (posCount "happy") (negCount "happy")) (anxCount "happy")) (angCount "happy") then "positive"
         else if negCount "happy" = max (max (max (posCount "happy") (negCount "happy")) (anxCount "happy")) (angCount "happy") then "negative"
         else if anxCount "happy" = max (max (max (posCount "happy") (negCount "happy")) (anxCount "happy")) (angCount "happy") then "anxiety"
         else "anger")
    ∧ (fallbackEmotionAnalysis "happy").score
      = ((max (max (max (posCount "happy") (negCount "happy")) (anxCount "happy")) (angCount "happy") : ℕ) : ℚ) / (tokenCount "happy" : ℚ)
    ∧ (fallbackEmotionAnalysis "happy").intensity
      = (if (fallbackEmotionAnalysis "happy").score > 1/50 then "high"
         else if (fallbackEmotionAnalysis "happy").score > 1/100 then "medium"
         else "low")) :=
  ⟨by decide, heuristic_argmax_score_intensity "happy" (by decide)⟩

/-- C3: for every input text with zero lexicon matches across all categories
(the empty string included), the heuristic classifier returns emotion
`neutral` with score 0. -/
theorem heuristic_zero_matches_neutral (text : String) (h : totalMatchCount text = 0) :
    (fallbackEmotionAnalysis text).emotion = "neutral"
    ∧ (fallbackEmotionAnalysis text).score = 0 := by
  refine ⟨?_, ?_⟩ <;> rw [fallback_eq_zero text h]

/-- C3 witness: the empty string has zero lexicon matches. -/
theorem heuristic_zero_matches_neutral_witness :
    totalMatchCount "" = 0
    ∧ (fallbackEmotionAnalysis "").emotion = "neutral"
    ∧ (fallbackEmotionAnalysis "").score = 0 :=
  ⟨by decide, heuristic_zero_matches_neutral "" (by decide)⟩

/-- Every run of `analyzeEmotion` returns either the heuristic fallback
result unchanged, or a validated, clamped model-path result. -/
lemma analyzeEmotion_fallback_or_model (env : ModelEnv) (text : String) :
    analyzeEmotion env text = fallbackEmotionAnalysis text
    ∨ ∃ e s ints kws sug, e ≠ ""
        ∧ analyzeEmotion env text =
          { emotion := e, score := min (max s 0) 1, intensity := ints,
            keywords := kws, suggestion := sug, source := "chrome-ai" } := by
  unfold analyzeEmotion
  dsimp only
  split
  · exact Or.inl rfl
  · split
    · exact Or.inl rfl
    · split
      · exact Or.inl rfl
      · split
        · split
          · next he => exact Or.inr ⟨_, _, _, _, _, he, rfl⟩
          · exact Or.inl rfl
        · exact Or.inl rfl

/-- C6: for every environment (model present or absent, call failing or
succeeding, response parseable or not) and every input string,
`analyzeEmotion` returns a classification result: every failure on the model
path is caught internally and degrades to exactly the heuristic fallback
result, and no exception escapes (the return type of the embedding is a plain
`Result`, with all fallible steps matched on internally). -/
theorem analyzeEmotion_total_degrades_to_fallback (env : ModelEnv) (text : String) :
    (analyzeEmotion env text).source = "chrome-ai"
    ∨ analyzeEmotion env text = fallbackEmotionAnalysis text := by
  rcases analyzeEmotion_fallback_or_model env text with h | ⟨e, s, ints, kws, sug, he, hm⟩
  · right; exact h
  · left; rw [hm]

/-- C7: the eviction filter of the history store is idempotent. -/
theorem evict_idempotent (now retentionWindowMs : ℤ) (log : List EmotionRecord) :
    evict now retentionWindowMs (evict now retentionWindowMs log)
      = evict now retentionWindowMs log := by
  unfold evict
  simp [List.filter_filter]

/-- C10: the `TRACK_EMOTION` handler persists the score of the message only when
it is truthy (`msg.score || null`), and persists `null` otherwise — in
particular a score of exactly 0 is persisted as `null`. -/
theorem trackEmotion_persists_score_only_when_truthy (now : ℤ) (url title : Option String)
    (msg : TrackMsg) :
    (mkEmotionRecord now url title msg).score
      = (if msg.score = none ∨ msg.score = some 0 then none else msg.score) := by
  unfold mkEmotionRecord jsOrNullScore
  rcases hs : msg.score with _ | v
  · simp
  · by_cases hv : v = 0 <;> simp [hv]

/-- An environment in which the language model is unavailable. -/
def noModelEnv : ModelEnv :=
  { sessionAvailable := false,
    translate := id,
    promptResponse := fun _ => Except.error (),
    parseResponse := fun _ => none }

/-- C1 counterexample: with the model unavailable, the facade result on the
text "feliz" has score 2, outside [0,1] — the heuristic score
matches / tokens is not clamped, and the lexicon lists "feliz" twice (once
under Portuguese, once under Spanish), so the single token earns two matches. -/
theorem analyzeEmotion_score_exceeds_one :
    ¬ ((analyzeEmotion noModelEnv "feliz").score ≤ 1) := by
  have h0 : analyzeEmotion noModelEnv "feliz" = fallbackEmotionAnalysis "feliz" := rfl
  rw [h0, fallback_eq "feliz" (by decide)]
  have hp : posCount "feliz" = 2 := by decide
  have hb : negCount "feliz" = 0 := by decide
  have hc : anxCount "feliz" = 0 := by decide
  have hd : angCount "feliz" = 0 := by decide
  have hn : tokenCount "feliz" = 1 := by decide
  rw [hp, hb, hc, hd, hn]
  norm_num

/-- C1 amended: the facade score is always nonnegative; on the model path
it is additionally clamped to at most 1 and the emotion is the
model-supplied nonempty string (not validated against the enumeration);
on the heuristic path the emotion is one of the five enumeration values
(but the score may exceed 1, as the counterexample shows). -/
theorem analyzeEmotion_range_invariants (env : ModelEnv) (text : String) :
    0 ≤ (analyzeEmotion env text).score
    ∧ ((analyzeEmotion env text).source = "chrome-ai" →
        (analyzeEmotion env text).score ≤ 1 ∧ (analyzeEmotion env text).emotion ≠ "")
    ∧ ((analyzeEmotion env text).source ≠ "chrome-ai" →
        (analyzeEmotion env text).emotion ∈
          (["positive", "negative", "anxiety", "anger", "neutral"] : List String)) := by
  rcases analyzeEmotion_fallback_or_model env text with h | ⟨e, s, ints, kws, sug, he, hm⟩
  · rw [h]
    refine ⟨fallback_score_nonneg text, ?_, fun _ => fallback_emotion_mem text⟩
    intro hsrc
    rw [fallback_source text] at hsrc
    exact absurd hsrc (by decide)
  · rw [hm]
    refine ⟨le_min (le_max_right s 0) (by norm_num), fun _ => ⟨min_le_right _ _, he⟩, ?_⟩
    intro hsrc
    exact absurd rfl hsrc

/-- C1 amended witness: concrete instance with the model unavailable. -/
theorem analyzeEmotion_range_invariants_witness :
    0 ≤ (analyzeEmotion noModelEnv "feliz").score
    ∧ (analyzeEmotion noModelEnv "feliz").emotion ∈
        (["positive", "negative", "anxiety", "anger", "neutral"] : List String) :=
  ⟨(analyzeEmotion_range_invariants noModelEnv "feliz").1,
   (analyzeEmotion_range_invariants noModelEnv "feliz").2.2 (by
      rw [show analyzeEmotion noModelEnv "feliz" = fallbackEmotionAnalysis "feliz" from rfl,
        fallback_source]
      decide)⟩

/-- Taking the head of a filtered list finds the first satisfying element (`availableExercises[0]`). -/
lemma head_filter_eq_find {α : Type} (p : α → Bool) (l : List α) :
    (l.filter p).head? = l.find? p := by
  induction l with
  | nil => rfl
  | cons a l ih =>
    by_cases h : p a
    · simp [List.filter_cons, h]
    · simp [List.filter_cons, List.find?_cons, h, ih]

/-- C4: for every emotion category and preference mapping, the ai-service
recommendation engine returns the first candidate of the fixed per-emotion
candidate list that is not explicitly disabled (an absent key counts as
enabled), and the fixed default "breathing" when every candidate is
disabled. -/
theorem recommend_first_enabled (emotion : String) (prefs : Prefs)
    (h : emotion ∈ (["positive", "negative", "anxiety", "anger", "neutral"] : List String)) :
    getRecommendedExercise emotion (some prefs)
      = ((if emotion = "anxiety" then ["breathing", "mindfulness"]
          else if emotion = "anger" then ["breathing", "mindfulness"]
          else if emotion = "negative" then ["affirmation", "mindfulness"]
          else if emotion = "positive" then ["affirmation"]
          else ["breathing", "affirmation", "mindfulness"]).find?
            (fun ex => !(prefs ex == some false))).getD "breathing" := by
  unfold getRecommendedExercise
  dsimp only
  rw [head_filter_eq_find]
  have hs : suggestedFor emotion
      = (if emotion = "anxiety" then ["breathing", "mindfulness"]
         else if emotion = "anger" then ["breathing", "mindfulness"]
         else if emotion = "negative" then ["affirmation", "mindfulness"]
         else if emotion = "positive" then ["affirmation"]
         else ["breathing", "affirmation", "mindfulness"]) := by
    simp only [List.mem_cons, List.mem_singleton, List.not_mem_nil, or_false] at h
    rcases h with rfl | rfl | rfl | rfl | rfl <;> rfl
  rw [hs]

/-- The preference mapping of the spec scenario: `{affirmation: false}`. -/
def disableAffirmation : Prefs := fun ex => if ex = "affirmation" then some false else none

/-- C4 witness: the spec scenario — recommending for "positive" with
affirmation disabled yields the fixed default "breathing". -/
theorem recommend_first_enabled_witness :
    ("positive" ∈ (["positive", "negative", "anxiety", "anger", "neutral"] : List String))
    ∧ getRecommendedExercise "positive" (some disableAffirmation)
        = ((if ("positive" : String) = "anxiety" then ["breathing", "mindfulness"]
            else if ("positive" : String) = "anger" then ["breathing", "mindfulness"]
            else if ("positive" : String) = "negative" then ["affirmation", "mindfulness"]
            else if ("positive" : String) = "positive" then ["affirmation"]
            else ["breathing", "affirmation", "mindfulness"]).find?
              (fun ex => !(disableAffirmation ex == some false))).getD "breathing"
    ∧ getRecommendedExercise "positive" (some disableAffirmation) = "breathing" :=
  ⟨by decide, recommend_first_enabled "positive" disableAffirmation (by decide), by decide⟩

/-- A preference mapping enabling only mindfulness (other keys absent). -/
def enableOnlyMindfulness : Prefs := fun ex => if ex = "mindfulness" then some true else none

/-- C5 counterexample: on emotion "positive" with the mapping
`{mindfulness: true}` (breathing and affirmation absent), the ai-service
engine treats the absent affirmation key as enabled and returns
"affirmation", while the preferred list of the background worker is
`["mindfulness"]`, no candidate matches, and it falls back to the first
preferred exercise "mindfulness". -/
theorem engines_disagree :
    getRecommendedExercise "positive" (some enableOnlyMindfulness) = "affirmation"
    ∧ bgGetRecommendedExercise "positive" (some enableOnlyMindfulness) = "mindfulness" := by
  exact ⟨by decide, by decide⟩

/-- C5 amended: the two recommendation engines agree whenever the preference
mapping explicitly assigns a boolean to each of the three exercise ids and at
least one candidate for the emotion is explicitly enabled; in general (absent
keys, or no enabled candidate) they differ, as the counterexample shows. -/
theorem engines_agree_on_total_prefs (emotion : String) (p : Prefs) (b a m : Bool)
    (hb : p "breathing" = some b) (ha : p "affirmation" = some a) (hm : p "mindfulness" = some m)
    (hex : ∃ c ∈ suggestedFor emotion, p c = some true) :
    getRecommendedExercise emotion (some p) = bgGetRecommendedExercise emotion (some p) := by
  unfold getRecommendedExercise bgGetRecommendedExercise
  dsimp only
  by_cases h1 : emotion = "anxiety"
  · subst h1
    rw [show suggestedFor "anxiety" = ["breathing", "mindfulness"] from rfl] at hex ⊢
    rcases b <;> rcases a <;> rcases m <;> simp_all +decide
  · by_cases h2 : emotion = "anger"
    · subst h2
      rw [show suggestedFor "anger" = ["breathing", "mindfulness"] from rfl] at hex ⊢
      rcases b <;> rcases a <;> rcases m <;> simp_all +decide
    · by_cases h3 : emotion = "negative"
      · subst h3
        rw [show suggestedFor "negative" = ["affirmation", "mindfulness"] from rfl] at hex ⊢
        rcases b <;> rcases a <;> rcases m <;> simp_all +decide
      · by_cases h4 : emotion = "positive"
        · subst h4
          rw [show suggestedFor "positive" = ["affirmation"] from rfl] at hex ⊢
          rcases b <;> rcases a <;> rcases m <;> simp_all +decide
        · have hsug : suggestedFor emotion = ["breathing", "affirmation", "mindfulness"] := by
            by_cases h5 : emotion = "neutral"
            · subst h5; rfl
            · unfold suggestedFor recommendationsLookup
              rw [if_neg h1, if_neg h2, if_neg h3, if_neg h4, if_neg h5]
              rfl
          rw [hsug] at hex ⊢
          rcases b <;> rcases a <;> rcases m <;> simp_all +decide

/-- A total preference mapping enabling all three exercises. -/
def allEnabledPrefs : Prefs := fun _ => some true

/-- C5 amended witness: with all three exercises explicitly enabled, both
engines return the same recommendation for "anxiety". -/
theorem engines_agree_on_total_prefs_witness :
    allEnabledPrefs "breathing" = some true
    ∧ allEnabledPrefs "affirmation" = some true
    ∧ allEnabledPrefs "mindfulness" = some true
    ∧ (∃ c ∈ suggestedFor "anxiety", allEnabledPrefs c = some true)
    ∧ getRecommendedExercise "anxiety" (some allEnabledPrefs)
        = bgGetRecommendedExercise "anxiety" (some allEnabledPrefs) :=
  ⟨rfl, rfl, rfl, by decide,
   engines_agree_on_total_prefs "anxiety" allEnabledPrefs true true true rfl rfl rfl (by decide)⟩

/-- C8: appending a record through the `TRACK_EMOTION` path (stamp with the
current time, push, evict with the 7-day window) and then querying the full
window returns the evicted old records in their original order followed by
the new record: the new record appears exactly once, at its insertion
position (the end), and the insertion order of all surviving records is
preserved. -/
theorem append_then_query_roundtrip (log : List EmotionRecord) (now : ℤ)
    (url title : Option String) (msg : TrackMsg)
    (hnow : 0 ≤ now) (hnotin : mkEmotionRecord now url title msg ∉ log) :
    queryWindow 0 (trackEmotionUpdate log now url title msg)
        = queryWindow 0 (evict now sevenDaysMs log) ++ [mkEmotionRecord now url title msg]
    ∧ (queryWindow 0 (trackEmotionUpdate log now url title msg)).count
        (mkEmotionRecord now url title msg) = 1 := by
  have hts : (mkEmotionRecord now url title msg).ts = now := rfl
  have h7 : (0:ℤ) ≤ sevenDaysMs := by unfold sevenDaysMs; norm_num
  have hsplit : queryWindow 0 (trackEmotionUpdate log now url title msg)
      = queryWindow 0 (evict now sevenDaysMs log) ++ [mkEmotionRecord now url title msg] := by
    unfold trackEmotionUpdate evict queryWindow
    rw [List.filter_append, List.filter_append]
    congr 1
    simp [hts]
    omega
  refine ⟨hsplit, ?_⟩
  rw [hsplit, List.count_append]
  have hcount0 : (queryWindow 0 (evict now sevenDaysMs log)).count
      (mkEmotionRecord now url title msg) = 0 := by
    refine List.count_eq_zero.mpr ?_
    intro hmem
    exact hnotin (List.mem_of_mem_filter (List.mem_of_mem_filter hmem))
  rw [hcount0]
  simp

/-- A pre-existing record whose timestamp is before epoch 0. -/
def witOld : EmotionRecord := ⟨-1, none, none, "neutral", none, "medium", [], "", "unknown"⟩

/-- A concrete `TRACK_EMOTION` payload. -/
def witMsg : TrackMsg := ⟨"positive", none, none, none, none, none⟩

/-- C8 witness: a concrete append into a one-record log at time 5. -/
theorem append_then_query_roundtrip_witness :
    (0:ℤ) ≤ 5
    ∧ mkEmotionRecord 5 none none witMsg ∉ [witOld]
    ∧ (queryWindow 0 (trackEmotionUpdate [witOld] 5 none none witMsg)
        = queryWindow 0 (evict 5 sevenDaysMs [witOld]) ++ [mkEmotionRecord 5 none none witMsg]
      ∧ (queryWindow 0 (trackEmotionUpdate [witOld] 5 none none witMsg)).count
          (mkEmotionRecord 5 none none witMsg) = 1) :=
  ⟨by decide, by decide,
   append_then_query_roundtrip [witOld] 5 none none witMsg (by decide) (by decide)⟩

/-- C9: for every emotion slice with at least 5 records, the first insight is
the overall-mood message — the positive message when the positive count
strictly exceeds half the total, else the negative message when the combined
negative + anxiety + anger count strictly exceeds half the total, else the
balanced message. -/
theorem insights_first_is_mood (emotionData : List EmotionRecord)
    (exerciseData : List ExerciseRecord) (h : 5 ≤ emotionData.length) :
    (generateInsights emotionData exerciseData).head?
      = some (if ((emotionData.countP (fun r => r.emotion == "positive") : ℕ) : ℚ)
                  > (emotionData.length : ℚ) * (1/2) then mostlyPositiveMsg
              else if ((emotionData.countP (fun r => r.emotion == "negative")
                  + emotionData.countP (fun r => r.emotion == "anxiety")
                  + emotionData.countP (fun r => r.emotion == "anger") : ℕ) : ℚ)
                  > (emotionData.length : ℚ) * (1/2) then mostlyNegativeMsg
              else balancedMsg) := by
  unfold generateInsights
  rw [if_neg (by omega)]
  rfl

def posRec : EmotionRecord := ⟨0, none, none, "positive", none, "medium", [], "", "heuristic"⟩

def neutRec : EmotionRecord := ⟨0, none, none, "neutral", none, "medium", [], "", "heuristic"⟩

/-- The spec scenario slice: 10 records, 6 of them positive. -/
def sampleLog10 : List EmotionRecord := List.replicate 6 posRec ++ List.replicate 4 neutRec

/-- C9 witness: the spec scenario — 10 records with 6 positive (60% > 50%)
yields the "mostly positive" message as the first insight. -/
theorem insights_first_is_mood_witness :
    5 ≤ sampleLog10.length
    ∧ (generateInsights sampleLog10 []).head? = some mostlyPositiveMsg := by
  refine ⟨by decide, ?_⟩
  rw [insights_first_is_mood sampleLog10 [] (by decide)]
  have h1 : sampleLog10.countP (fun r => r.emotion == "positive") = 6 := by decide
  have h0 : sampleLog10.length = 10 := by decide
  rw [h1, h0, if_pos (by norm_num)]

end Wellness
